import Mathlib

/-!
Verification of the ESS sample-size calculator core
(`calculator_core.py`) against its specification.

The Python module is shallowly embedded over exact rationals:
Python floats become `ℚ`, `math.ceil` becomes `Int.ceil`, `round(x, 3)`
becomes round-half-to-even at three decimals, dict/list lookups become
`Option`-returning functions, and every Python division whose denominator
can be zero at runtime goes through a checked division returning
`Except CalcError` (mirroring `ZeroDivisionError`).  The statsmodels
power solver is an external library and is kept as an explicit function
parameter of the calculation.
-/

namespace ESSCalc

/-- Errors the Python code can raise while computing a sample size:
`stopIteration` from the profile generator lookup (unknown survey type),
`keyError` from the confidence-level dict lookup, and `zeroDivision`
from a division whose denominator evaluates to zero. -/
inductive CalcError where
  | stopIteration
  | keyError
  | zeroDivision
deriving DecidableEq, Repr

/-- Checked division: Python raises `ZeroDivisionError` when the
denominator is zero; otherwise it divides. -/
def pydiv (a b : ℚ) : Except CalcError ℚ :=
  if b = 0 then .error .zeroDivision else .ok (a / b)

/-- Python rounding (half to even) of a rational to the nearest integer
(round-half-to-even), as used by the built-in `round`. -/
def roundHalfEven (x : ℚ) : ℤ :=
  let f := Int.floor x
  let frac := x - (f : ℚ)
  if frac < 1/2 then f
  else if 1/2 < frac then f + 1
  else if f % 2 = 0 then f else f + 1

/-- Python `round(x, 3)`: round to three decimal places, ties to even. -/
def pyRound3 (x : ℚ) : ℚ := (roundHalfEven (x * 1000) : ℚ) / 1000

/-- A survey profile record: `{id, name, default_icc,
default_cluster_size, description}`. -/
structure SurveyProfile where
  id : String
  name : String
  default_icc : ℚ
  default_cluster_size : ℚ
  description : String
deriving DecidableEq, Repr

/-- The built-in fallback registry from `load_survey_profiles`
(used when `assets/survey_types.json` is unavailable). -/
def defaultProfiles : List SurveyProfile :=
  [⟨"annual_agri", "Annual Agriculture Survey", 3/20, 25,
    "Crop area and production estimates"⟩]

/-- The `SurveyParameters` dataclass.  Field defaults in the Python code
are `confidence_level = 95`, `margin_error = 0.05`, `avg_cluster_size = 20`,
`icc = None`, `expected_prevalence = 0.5`, `non_response_rate = 0.1`,
`effect_size = None`, `alpha = 0.05`, `power = 0.8`; callers here always
pass every field explicitly. -/
structure SurveyParameters where
  survey_type : String
  population_size : ℤ
  confidence_level : ℤ
  margin_error : ℚ
  avg_cluster_size : ℤ
  icc : Option ℚ
  expected_prevalence : ℚ
  non_response_rate : ℚ
  effect_size : Option ℚ
  alpha : ℚ
  power : ℚ
deriving DecidableEq, Repr

/-- The result dict of `calculate_sample`, in the order the keys are
assembled. -/
structure SampleResult where
  base_sample_size : ℤ
  design_effect : ℚ
  icc : ℚ
  cluster_size : ℚ
  adjusted_sample_size : ℤ
  final_sample_size : ℤ
  power_sample_size : Option ℤ
  effective_sample_size : ℤ
deriving DecidableEq, Repr

/-- The dict `self.confidence_levels = {90: 1.645, 95: 1.96, 99: 2.576}`:
the dict lookup, `none` modelling a `KeyError`. -/
def zScore (cl : ℤ) : Option ℚ :=
  if cl = 90 then some (329/200)
  else if cl = 95 then some (49/25)
  else if cl = 99 then some (322/125)
  else none

/-- Method `calculate_deff`: design effect for cluster sampling,
`1 + (avg_cluster_size - 1) * icc`. -/
def calculate_deff (avg_cluster_size : ℚ) (icc : ℚ) : ℚ :=
  1 + (avg_cluster_size - 1) * icc

/-- Method `_calculate_base_sample`:
`Z**2 * p * (1 - p) / margin_error**2`, where `Z` is looked up in the
confidence-level dict (a missing key raises `KeyError`). -/
def calcBaseSample (confidence_level : ℤ) (p e : ℚ) : Except CalcError ℚ :=
  match zScore confidence_level with
  | none => .error .keyError
  | some Z => pydiv (Z ^ 2 * p * (1 - p)) (e ^ 2)

/-- The value of the finite population correction when it is total:
`n / (1 + (n - 1)/N) if N else n`. -/
def fpcVal (n : ℚ) (N : ℤ) : ℚ :=
  if N = 0 then n else n / (1 + (n - 1) / (N : ℚ))

/-- Method `_apply_fpc`: finite population correction with Python division
semantics (the outer division can raise `ZeroDivisionError`). -/
def applyFpc (n : ℚ) (N : ℤ) : Except CalcError ℚ :=
  if N = 0 then .ok n else pydiv n (1 + (n - 1) / (N : ℚ))

/-- The non-response inflation step of `calculate_sample` (line
`final_n = n_fpc / (1 - params.non_response_rate)`), as a total value. -/
def inflate (n_fpc r : ℚ) : ℚ := n_fpc / (1 - r)

/-- Resolution `icc = params.icc or profile["default_icc"]`:
Python `or` falls through on `None` and on the falsy value `0.0`. -/
def resolveIcc (explicit : Option ℚ) (dflt : ℚ) : ℚ :=
  match explicit with
  | none => dflt
  | some x => if x = 0 then dflt else x

/-- Resolution `b = params.avg_cluster_size or profile["default_cluster_size"]`:
an `avg_cluster_size` of `0` is falsy and falls through to the default. -/
def resolveB (explicit : ℤ) (dflt : ℚ) : ℚ :=
  if explicit = 0 then dflt else (explicit : ℚ)

/-- The optional power branch of `calculate_sample`: `power_sample` is
set only when `if params.effect_size:` is truthy (so neither `None` nor
`0.0`), and the result key is
`math.ceil(power_sample) if power_sample else None`. -/
def powerField (solver : ℚ → ℚ → ℚ → ℚ) (params : SurveyParameters) : Option ℤ :=
  let power_sample : Option ℚ :=
    match params.effect_size with
    | none => none
    | some es =>
      if es = 0 then none else some (solver es params.alpha params.power)
  match power_sample with
  | none => none
  | some ps => if ps = 0 then none else some (Int.ceil ps)

/-- Method `calculate_sample`.  The profile registry (`self.survey_profiles`)
and the statsmodels power solver (`TTestIndPower().solve_power`) are
passed explicitly; everything else follows the Python statement order:
profile lookup (a failing `next` raises `StopIteration`), icc/cluster
resolution, design effect, base sample, design adjustment, finite
population correction, non-response division, optional power branch,
and result assembly with `math.ceil` / `round(·, 3)`. -/
def calculate_sample (solver : ℚ → ℚ → ℚ → ℚ) (profiles : List SurveyProfile)
    (params : SurveyParameters) : Except CalcError SampleResult :=
  match profiles.find? (fun p => p.id == params.survey_type) with
  | none => .error .stopIteration
  | some profile =>
    let icc := resolveIcc params.icc profile.default_icc
    let b := resolveB params.avg_cluster_size profile.default_cluster_size
    let deff := calculate_deff b icc
    match calcBaseSample params.confidence_level params.expected_prevalence
        params.margin_error with
    | .error e => .error e
    | .ok n0 =>
      let n_design := n0 * deff
      match applyFpc n_design params.population_size with
      | .error e => .error e
      | .ok n_fpc =>
        match pydiv n_fpc (1 - params.non_response_rate) with
        | .error e => .error e
        | .ok final_n =>
          .ok ⟨Int.ceil n0, pyRound3 deff, pyRound3 icc, b,
               Int.ceil n_design, Int.ceil final_n,
               powerField solver params, Int.ceil n0⟩

/-- A trivial stand-in solver for evaluations where the power branch is
not taken (the Python code would not call statsmodels there). -/
def solverZero : ℚ → ℚ → ℚ → ℚ := fun _ _ _ => 0

/-- The worked example scenario of the spec: population 15000, confidence 95,
margin 0.05, prevalence 0.5, cluster size 25, icc 0.15, non-response 0.10,
no power triple. -/
def exampleParams : SurveyParameters :=
  ⟨"annual_agri", 15000, 95, 1/20, 25, some (3/20), 1/2, 1/10, none, 1/20, 4/5⟩

/-- The example scenario with non-response rate `1.5 ≥ 1` (all other
fields as in the worked example). -/
def paramsNonResponseOverOne : SurveyParameters :=
  ⟨"annual_agri", 15000, 95, 1/20, 25, some (3/20), 1/2, 3/2, none, 1/20, 4/5⟩

/-- The example scenario with an explicitly supplied `icc = 0`. -/
def paramsIccZero : SurveyParameters :=
  ⟨"annual_agri", 15000, 95, 1/20, 25, some 0, 1/2, 1/10, none, 1/20, 4/5⟩

/-- The example scenario with an explicitly supplied `effect_size = 0`
(alpha and power carrying their dataclass defaults `0.05` and `0.8`). -/
def paramsEffectZero : SurveyParameters :=
  ⟨"annual_agri", 15000, 95, 1/20, 25, some (3/20), 1/2, 1/10, some 0, 1/20, 4/5⟩

/-- The example scenario with `effect_size = 0.5` supplied. -/
def paramsEffectHalf : SurveyParameters :=
  ⟨"annual_agri", 15000, 95, 1/20, 25, some (3/20), 1/2, 1/10, some (1/2), 1/20, 4/5⟩

/-- A solver returning the canonical two-sample value 63. -/
def solver63 : ℚ → ℚ → ℚ → ℚ := fun _ _ _ => 63

/-- The example scenario with a `survey_type` matching no profile. -/
def paramsUnknownType : SurveyParameters :=
  ⟨"unknown_survey", 15000, 95, 1/20, 25, some (3/20), 1/2, 1/10, none, 1/20, 4/5⟩

/-- The example scenario with the unsupported confidence level 80. -/
def paramsConfidence80 : SurveyParameters :=
  ⟨"annual_agri", 15000, 80, 1/20, 25, some (3/20), 1/2, 1/10, none, 1/20, 4/5⟩

end ESSCalc

namespace ESSCalc

/-- Ceiling of the base sample 384.16. -/
theorem ceil_base : (⌈(9604/25 : ℚ)⌉ : ℤ) = 385 := by
  rw [Int.ceil_eq_iff]
  norm_num

/-- Ceiling of the design-adjusted sample 1767.136. -/
theorem ceil_design : (⌈(220892/125 : ℚ)⌉ : ℤ) = 1768 := by
  rw [Int.ceil_eq_iff]
  norm_num

/-- Ceiling of the final sample 1756.65… for the worked example. -/
theorem ceil_final : (⌈(11044600000/6287301 : ℚ)⌉ : ℤ) = 1757 := by
  rw [Int.ceil_eq_iff]
  norm_num

/-- Ceiling of the negative "final sample" produced at
non-response rate 1.5. -/
theorem ceil_final_neg : (⌈(-(2208920000/698589) : ℚ)⌉ : ℤ) = -3161 := by
  rw [Int.ceil_eq_iff]
  norm_num

/-- Looking up "annual_agri" in the default registry. -/
theorem find_annual :
    List.find? (fun p => p.id == "annual_agri") defaultProfiles =
      some ⟨"annual_agri", "Annual Agriculture Survey", 3/20, 25,
        "Crop area and production estimates"⟩ := rfl

/-- Evaluation of the worked example for an arbitrary solver (the power
branch is skipped because `effect_size` is absent). -/
theorem calcSample_example (solver : ℚ → ℚ → ℚ → ℚ) :
    calculate_sample solver defaultProfiles exampleParams =
      Except.ok ⟨385, 23/5, 3/20, 25, 1768, 1757, none, 385⟩ := by
  norm_num [calculate_sample, exampleParams, find_annual, calcBaseSample, zScore,
    pydiv, applyFpc, calculate_deff, resolveIcc, resolveB, pyRound3, roundHalfEven,
    powerField, ceil_base, ceil_design, ceil_final]

/-- C1 (counterexample): on the worked example of the spec the code returns
`final_sample_size = 1757`, not the claimed `1737` (the intermediate value of the spec, `n_fpc ≈ 1563.1` is an arithmetic slip; the exact
value is `1767.136 / (1 + 1766.136/15000) ≈ 1580.99`). -/
theorem C1_final_size_is_1757_not_1737 :
    (calculate_sample solverZero defaultProfiles exampleParams).map
      SampleResult.final_sample_size = Except.ok 1757 ∧ (1757 : ℤ) ≠ 1737 := by
  refine ⟨?_, by decide⟩
  rw [calcSample_example solverZero]
  rfl

/-- C1 (amended): on the worked example, for any power solver,
`calculate_sample` returns base 385, design effect 4.6, icc 0.15,
cluster size 25, adjusted 1768, final 1757, no power size, and
effective 385. -/
theorem C1_example_result (solver : ℚ → ℚ → ℚ → ℚ) :
    calculate_sample solver defaultProfiles exampleParams =
      Except.ok ⟨385, 23/5, 3/20, 25, 1768, 1757, none, 385⟩ := by
  exact calcSample_example solver

/-- C2 (code bug): with `non_response_rate = 1.5 ≥ 1` the code raises no
error at all; it returns a full result whose `final_sample_size` is the
negative number `-3161`, instead of aborting with an invalid-parameter
error as the spec requires. -/
theorem C2_r_ge_one_yields_negative_result :
    calculate_sample solverZero defaultProfiles paramsNonResponseOverOne =
      Except.ok ⟨385, 23/5, 3/20, 25, 1768, -3161, none, 385⟩ ∧
    (-3161 : ℤ) < 0 := by
  refine ⟨?_, by decide⟩
  norm_num [calculate_sample, paramsNonResponseOverOne, find_annual, calcBaseSample,
    zScore, pydiv, applyFpc, calculate_deff, resolveIcc, resolveB, pyRound3,
    roundHalfEven, powerField, ceil_base, ceil_design, ceil_final_neg]

/-- C3 (counterexample): with `effect_size = 0` explicitly supplied (and
alpha, power carrying values), all three power fields are present yet
the returned `power_sample_size` is null, because the guard in the code is
the Python truthiness test `if params.effect_size:`; no invalid-parameter
error is raised either. -/
theorem C3_effect_zero_gives_null_power :
    paramsEffectZero.effect_size = some 0 ∧
    (calculate_sample (fun _ _ _ => 1) defaultProfiles paramsEffectZero).map
      SampleResult.power_sample_size = Except.ok none := by
  refine ⟨rfl, ?_⟩
  have h : calculate_sample (fun _ _ _ => 1) defaultProfiles paramsEffectZero =
      Except.ok ⟨385, 23/5, 3/20, 25, 1768, 1757, none, 385⟩ := by
    norm_num [calculate_sample, paramsEffectZero, find_annual, calcBaseSample,
      zScore, pydiv, applyFpc, calculate_deff, resolveIcc, resolveB, pyRound3,
      roundHalfEven, powerField, ceil_base, ceil_design, ceil_final]
  rw [h]
  rfl

/-- C3 (amended): whenever `calculate_sample` succeeds, the power-based
size is null when `effect_size` is absent, null when it is supplied as
`0`, null when the value of the solver is `0`, and otherwise equals the
ceiling of the value of the solver; alpha and power always carry values, so
no partially-specified-triple error exists. -/
theorem C3_power_branch_rule (solver : ℚ → ℚ → ℚ → ℚ)
    (profiles : List SurveyProfile) (params : SurveyParameters)
    (res : SampleResult) (v : ℚ)
    (h : calculate_sample solver profiles params = Except.ok res) :
    (params.effect_size = none → res.power_sample_size = none) ∧
    (params.effect_size = some 0 → res.power_sample_size = none) ∧
    (params.effect_size = some v → solver v params.alpha params.power = 0 →
      res.power_sample_size = none) ∧
    (params.effect_size = some v → v ≠ 0 →
      solver v params.alpha params.power ≠ 0 →
      res.power_sample_size = some (Int.ceil (solver v params.alpha params.power))) := by
  have hps : res.power_sample_size = powerField solver params := by
    unfold calculate_sample at h
    split at h
    · exact absurd h (by simp)
    · simp only [] at h
      split at h
      · exact absurd h (by simp)
      · split at h
        · exact absurd h (by simp)
        · split at h
          · exact absurd h (by simp)
          · have h2 := Except.ok.inj h
            subst h2
            rfl
  rw [hps]
  refine ⟨fun he => by simp [powerField, he], fun he => by simp [powerField, he],
    fun he hs => ?_, fun he hv hs => by simp [powerField, he, hv, hs]⟩
  rcases eq_or_ne v 0 with rfl | hv
  · simp [powerField, he]
  · simp [powerField, he, hv, hs]

/-- C3 (witness for the amended rule): on the example scenario with
`effect_size = 0.5` and a solver returning 63, the power size of the result
is `some 63`. -/
theorem C3_power_branch_rule_witness :
    calculate_sample solver63 defaultProfiles paramsEffectHalf =
      Except.ok ⟨385, 23/5, 3/20, 25, 1768, 1757, some 63, 385⟩ ∧
    (⟨385, 23/5, 3/20, 25, 1768, 1757, some 63, 385⟩ : SampleResult).power_sample_size
      = some (Int.ceil (solver63 (1/2) (1/20) (4/5))) := by
  have h : calculate_sample solver63 defaultProfiles paramsEffectHalf =
      Except.ok ⟨385, 23/5, 3/20, 25, 1768, 1757, some 63, 385⟩ := by
    norm_num [calculate_sample, paramsEffectHalf, find_annual, calcBaseSample,
      zScore, pydiv, applyFpc, calculate_deff, resolveIcc, resolveB, pyRound3,
      roundHalfEven, powerField, solver63, ceil_base, ceil_design, ceil_final]
  refine ⟨h, ?_⟩
  exact (C3_power_branch_rule solver63 defaultProfiles paramsEffectHalf
    ⟨385, 23/5, 3/20, 25, 1768, 1757, some 63, 385⟩ (1/2) h).2.2.2
    rfl (by norm_num) (by norm_num [solver63])

/-- C4 (code bug): an explicitly supplied `icc = 0` is falsy in Python,
so the resolution with Python `or` silently substitutes the
profile default 0.15: the result reports `icc = 0.15` and
`design_effect = 4.6` instead of the claimed icc 0, DEFF 1, and
`adjusted_sample_size = ceil(base)`. -/
theorem C4_icc_zero_falls_back_to_default :
    paramsIccZero.icc = some 0 ∧
    calculate_sample solverZero defaultProfiles paramsIccZero =
      Except.ok ⟨385, 23/5, 3/20, 25, 1768, 1757, none, 385⟩ ∧
    (23 : ℚ)/5 ≠ 1 ∧ (3 : ℚ)/20 ≠ 0 ∧ (1768 : ℤ) ≠ 385 := by
  refine ⟨rfl, ?_, by norm_num, by norm_num, by decide⟩
  norm_num [calculate_sample, paramsIccZero, find_annual, calcBaseSample,
    zScore, pydiv, applyFpc, calculate_deff, resolveIcc, resolveB, pyRound3,
    roundHalfEven, powerField, ceil_base, ceil_design, ceil_final]

/-- C5: when no profile id matches the requested survey type, the
profile lookup fails (`next` over an exhausted generator raises
`StopIteration`) and `calculate_sample` produces no result at all. -/
theorem C5_unknown_survey_type_fails (solver : ℚ → ℚ → ℚ → ℚ)
    (profiles : List SurveyProfile) (params : SurveyParameters)
    (h : ∀ p ∈ profiles, p.id ≠ params.survey_type) :
    calculate_sample solver profiles params = Except.error CalcError.stopIteration := by
  have hfind : profiles.find? (fun p => p.id == params.survey_type) = none := by
    rw [List.find?_eq_none]
    intro p hp
    simpa using h p hp
  unfold calculate_sample
  rw [hfind]

/-- C5 (witness): the survey type "unknown_survey" matches nothing in
the default registry and the call errors out. -/
theorem C5_unknown_survey_type_fails_witness :
    calculate_sample solverZero defaultProfiles paramsUnknownType =
      Except.error CalcError.stopIteration := by
  exact C5_unknown_survey_type_fails solverZero defaultProfiles paramsUnknownType
    (by decide)

/-- C6 (counterexample): the claimed inequality `n_fpc ≤ n_design` for
every positive N fails when `n_design < 1`: at `n_design = 1/2`,
`N = 1` the correction returns `1 > 1/2`. -/
theorem C6_fpc_can_exceed_for_small_n :
    applyFpc (1/2) 1 = Except.ok 1 ∧ ¬((1 : ℚ) ≤ 1/2) := by
  refine ⟨?_, by norm_num⟩
  norm_num [applyFpc, pydiv]

/-- C6 (amended): for `n_design ≥ 1` the correction computes
`n / (1 + (n-1)/N)` for every positive N, never exceeds `n`, is skipped
(`n_fpc = n`) when N is zero, and its value tends to `n` as N grows
without bound. -/
theorem C6_fpc_properties (n : ℚ) (hn : 1 ≤ n) (N : ℤ) (hN : 0 < N) :
    applyFpc n N = Except.ok (n / (1 + (n - 1) / (N : ℚ))) ∧
    n / (1 + (n - 1) / (N : ℚ)) ≤ n ∧
    applyFpc n 0 = Except.ok n ∧
    Filter.Tendsto (fun k : ℕ => ((fpcVal n (k : ℤ) : ℚ) : ℝ))
      Filter.atTop (nhds ((n : ℚ) : ℝ)) := by
  have hNQ : (0 : ℚ) < (N : ℚ) := by exact_mod_cast hN
  have hd : (1 : ℚ) ≤ 1 + (n - 1) / (N : ℚ) := by
    have : (0 : ℚ) ≤ (n - 1) / (N : ℚ) := div_nonneg (by linarith) hNQ.le
    linarith
  have hdne : (1 : ℚ) + (n - 1) / (N : ℚ) ≠ 0 := by linarith
  refine ⟨?_, ?_, ?_, ?_⟩
  · unfold applyFpc pydiv
    rw [if_neg hN.ne', if_neg hdne]
  · exact div_le_self (by linarith) hd
  · unfold applyFpc
    rw [if_pos rfl]
  · have h1 : Filter.Tendsto (fun k : ℕ => ((n : ℝ) - 1) / (k : ℝ))
        Filter.atTop (nhds 0) := tendsto_const_div_atTop_nhds_zero_nat _
    have h2 : Filter.Tendsto (fun k : ℕ => 1 + ((n : ℝ) - 1) / (k : ℝ))
        Filter.atTop (nhds 1) := by
      simpa using h1.const_add 1
    have h3 : Filter.Tendsto (fun k : ℕ => (n : ℝ) / (1 + ((n : ℝ) - 1) / (k : ℝ)))
        Filter.atTop (nhds ((n : ℝ) / 1)) :=
      Filter.Tendsto.div tendsto_const_nhds h2 one_ne_zero
    rw [div_one] at h3
    refine h3.congr' ?_
    filter_upwards [Filter.eventually_ge_atTop 1] with k hk
    have hk0 : (k : ℤ) ≠ 0 := by
      simp only [ne_eq, Int.natCast_eq_zero]
      omega
    unfold fpcVal
    rw [if_neg hk0]
    push_cast
    ring_nf

/-- C6 (witness): the amended properties instantiated at `n = 2`,
`N = 5`. -/
theorem C6_fpc_properties_witness :
    applyFpc 2 5 = Except.ok (2 / (1 + (2 - 1) / ((5 : ℤ) : ℚ))) ∧
    2 / (1 + (2 - 1) / ((5 : ℤ) : ℚ)) ≤ 2 ∧
    applyFpc 2 0 = Except.ok 2 ∧
    Filter.Tendsto (fun k : ℕ => ((fpcVal 2 (k : ℤ) : ℚ) : ℝ))
      Filter.atTop (nhds ((2 : ℚ) : ℝ)) := by
  exact C6_fpc_properties 2 (by norm_num) 5 (by norm_num)

/-- C7: for icc in `[0,1]` and cluster size at least 1, `calculate_deff`
returns exactly `1 + (b - 1) * icc`, and returns 1 at icc 0 for any
cluster size. -/
theorem C7_deff_formula (icc b b2 : ℚ) (h0 : 0 ≤ icc) (h1 : icc ≤ 1)
    (hb : 1 ≤ b) :
    calculate_deff b icc = 1 + (b - 1) * icc ∧ calculate_deff b2 0 = 1 := by
  exact ⟨rfl, by simp [calculate_deff]⟩

/-- C7 (witness): instantiated at icc 0.15, cluster size 25, and an
arbitrary second cluster size 7. -/
theorem C7_deff_formula_witness :
    calculate_deff 25 (3/20) = 1 + (25 - 1) * (3/20) ∧ calculate_deff 7 0 = 1 := by
  exact C7_deff_formula (3/20) 25 7 (by norm_num) (by norm_num) (by norm_num)

/-- When the confidence level resolves to a z-score and the margin of
error is nonzero, the base sample computation succeeds with exactly
`Z^2 * p * (1-p) / e^2`. -/
theorem calcBaseSample_ok (c : ℤ) (Z p e n : ℚ) (hz : zScore c = some Z)
    (he : e ≠ 0) (h : calcBaseSample c p e = Except.ok n) :
    n = Z ^ 2 * p * (1 - p) / e ^ 2 := by
  unfold calcBaseSample at h
  rw [hz] at h
  change pydiv (Z ^ 2 * p * (1 - p)) (e ^ 2) = Except.ok n at h
  unfold pydiv at h
  rw [if_neg (pow_ne_zero 2 he)] at h
  exact (Except.ok.inj h).symm

/-- C8: for each of the three supported confidence levels and fixed
prevalence in `(0,1)`, the base sample size is strictly decreasing in
the margin of error on `(0,1)`. -/
theorem C8_base_sample_strict_anti (c : ℤ) (hc : c = 90 ∨ c = 95 ∨ c = 99)
    (p e1 e2 n1 n2 : ℚ) (hp0 : 0 < p) (hp1 : p < 1) (he1 : 0 < e1)
    (h12 : e1 < e2) (he2 : e2 < 1)
    (h1 : calcBaseSample c p e1 = Except.ok n1)
    (h2 : calcBaseSample c p e2 = Except.ok n2) : n2 < n1 := by
  have he2pos : 0 < e2 := he1.trans h12
  have hsq : e1 ^ 2 < e2 ^ 2 := by nlinarith
  have key : ∀ Z : ℚ, 0 < Z →
      Z ^ 2 * p * (1 - p) / e2 ^ 2 < Z ^ 2 * p * (1 - p) / e1 ^ 2 := by
    intro Z hZ
    have hK : 0 < Z ^ 2 * p * (1 - p) := by
      have h1p : (0 : ℚ) < 1 - p := by linarith
      have := mul_pos (mul_pos (pow_pos hZ 2) hp0) h1p
      linarith
    exact div_lt_div_of_pos_left hK (by positivity) hsq
  rcases hc with rfl | rfl | rfl
  · rw [calcBaseSample_ok 90 (329/200) p e1 n1 rfl he1.ne' h1,
      calcBaseSample_ok 90 (329/200) p e2 n2 rfl he2pos.ne' h2]
    exact key (329/200) (by norm_num)
  · rw [calcBaseSample_ok 95 (49/25) p e1 n1 rfl he1.ne' h1,
      calcBaseSample_ok 95 (49/25) p e2 n2 rfl he2pos.ne' h2]
    exact key (49/25) (by norm_num)
  · rw [calcBaseSample_ok 99 (322/125) p e1 n1 rfl he1.ne' h1,
      calcBaseSample_ok 99 (322/125) p e2 n2 rfl he2pos.ne' h2]
    exact key (322/125) (by norm_num)

/-- C8 (witness): at confidence 95 and prevalence 0.5, widening the
margin from 0.05 to 0.10 strictly shrinks the base sample
(384.16 to 96.04). -/
theorem C8_base_sample_strict_anti_witness :
    calcBaseSample 95 (1/2) (1/20) = Except.ok (9604/25) ∧
    calcBaseSample 95 (1/2) (1/10) = Except.ok (2401/25) ∧
    (2401 : ℚ)/25 < 9604/25 := by
  have h1 : calcBaseSample 95 (1/2) (1/20) = Except.ok (9604/25) := by
    norm_num [calcBaseSample, zScore, pydiv]
  have h2 : calcBaseSample 95 (1/2) (1/10) = Except.ok (2401/25) := by
    norm_num [calcBaseSample, zScore, pydiv]
  refine ⟨h1, h2, ?_⟩
  exact C8_base_sample_strict_anti 95 (Or.inr (Or.inl rfl)) (1/2) (1/20) (1/10)
    (9604/25) (2401/25) (by norm_num) (by norm_num) (by norm_num) (by norm_num)
    (by norm_num) h1 h2

/-- C9: dividing by `1 - r` never shrinks the sample for
`r ∈ [0, 1)`, and is strictly increasing in the non-response rate when
the corrected sample is positive. -/
theorem C9_inflate_monotone (n r r2 : ℚ) (hn : 0 ≤ n) (hr0 : 0 ≤ r)
    (hr1 : r < 1) (hr2a : r < r2) (hr2b : r2 < 1) :
    n ≤ inflate n r ∧ (0 < n → inflate n r < inflate n r2) := by
  have h1r : (0 : ℚ) < 1 - r := by linarith
  have h1r2 : (0 : ℚ) < 1 - r2 := by linarith
  constructor
  · unfold inflate
    rw [le_div_iff₀ h1r]
    nlinarith
  · intro hn'
    unfold inflate
    exact div_lt_div_of_pos_left hn' h1r2 (by linarith)

/-- C9 (witness): instantiated at `n_fpc = 1`, rates 0 and 0.5. -/
theorem C9_inflate_monotone_witness :
    (1 : ℚ) ≤ inflate 1 0 ∧ (0 < (1 : ℚ) → inflate 1 0 < inflate 1 (1/2)) := by
  exact C9_inflate_monotone 1 0 (1/2) (by norm_num) (by norm_num) (by norm_num)
    (by norm_num) (by norm_num)

/-- C10: when the confidence level is none of 90, 95, 99,
`calculate_sample` ends in a lookup error — either `StopIteration` from
the profile lookup or `KeyError` from the z-score dict — and never
returns a result. -/
theorem C10_bad_confidence_fails (solver : ℚ → ℚ → ℚ → ℚ)
    (profiles : List SurveyProfile) (params : SurveyParameters)
    (h90 : params.confidence_level ≠ 90) (h95 : params.confidence_level ≠ 95)
    (h99 : params.confidence_level ≠ 99) :
    calculate_sample solver profiles params = Except.error CalcError.stopIteration ∨
    calculate_sample solver profiles params = Except.error CalcError.keyError := by
  have hz : zScore params.confidence_level = none := by
    unfold zScore
    rw [if_neg h90, if_neg h95, if_neg h99]
  unfold calculate_sample
  cases hfind : profiles.find? (fun p => p.id == params.survey_type) with
  | none => exact Or.inl rfl
  | some profile =>
    right
    have hbase : calcBaseSample params.confidence_level
        params.expected_prevalence params.margin_error =
        Except.error CalcError.keyError := by
      unfold calcBaseSample
      rw [hz]
    simp only [hbase]

/-- C10 (witness): confidence level 80 on the default registry yields a
lookup error. -/
theorem C10_bad_confidence_fails_witness :
    calculate_sample solverZero defaultProfiles paramsConfidence80 =
      Except.error CalcError.stopIteration ∨
    calculate_sample solverZero defaultProfiles paramsConfidence80 =
      Except.error CalcError.keyError := by
  exact C10_bad_confidence_fails solverZero defaultProfiles paramsConfidence80
    (by decide) (by decide) (by decide)

end ESSCalc
